import Mathlib

/-!
Verification development for the statime PTP (IEEE 1588-2019) implementation.

The Rust sources are shallowly embedded: byte buffers are `List Nat` (each
entry a byte value), machine integers are `Nat`/`Int` with explicit bounds,
fallible operations return an `Outcome` that distinguishes a successful
result, a `WireFormatError`, and a Rust panic (out-of-bounds indexing,
`unimplemented!`).
-/

set_option autoImplicit false

namespace Statime

/-- Tag naming the enum that failed to decode, per the spec's
`InvalidEnumValue(tag, value)`. -/
inductive EnumTag where
  | messageType
  deriving DecidableEq, Repr

/-- Wire format error type, from the spec taxonomy:
`WireFormatError::{BufferTooShort, InvalidEnumValue(tag, value), OutOfRange}`. -/
inductive WireFormatError where
  | bufferTooShort
  | invalidEnumValue (tag : EnumTag) (value : Nat)
  | outOfRange
  deriving DecidableEq, Repr

/-- Result of running a fallible Rust operation: success, a returned
`WireFormatError`, or a panic (out-of-bounds indexing / slicing). -/
inductive Outcome (α : Type) where
  | ok : α → Outcome α
  | err : WireFormatError → Outcome α
  | crash : Outcome α
  deriving DecidableEq, Repr

/-- Bind for `Outcome`: errors and panics propagate. -/
def Outcome.bind {α β : Type} : Outcome α → (α → Outcome β) → Outcome β
  | .ok a, f => f a
  | .err e, _ => .err e
  | .crash, _ => .crash

instance : Monad Outcome where
  pure := Outcome.ok
  bind := Outcome.bind

@[simp] theorem Outcome.bind_ok {α β : Type} (a : α) (f : α → Outcome β) :
    Outcome.bind (.ok a) f = f a := rfl

@[simp] theorem Outcome.bind_err {α β : Type} (e : WireFormatError) (f : α → Outcome β) :
    Outcome.bind (.err e) f = .err e := rfl

@[simp] theorem Outcome.bind_crash {α β : Type} (f : α → Outcome β) :
    Outcome.bind (.crash) f = .crash := rfl

@[simp] theorem Outcome.bind_eq {α β : Type} (x : Outcome α) (f : α → Outcome β) :
    x >>= f = Outcome.bind x f := rfl

@[simp] theorem Outcome.pure_eq {α : Type} (a : α) : (pure a : Outcome α) = .ok a := rfl

/-- Map for `Outcome`. -/
def Outcome.map {α β : Type} (f : α → β) : Outcome α → Outcome β
  | .ok a => .ok (f a)
  | .err e => .err e
  | .crash => .crash

/-- Read `b[i]`; an out-of-bounds index is a Rust panic. -/
def getByte (b : List Nat) (i : Nat) : Outcome Nat :=
  match b, i with
  | [], _ => .crash
  | x :: _, 0 => .ok x
  | _ :: xs, i + 1 => getByte xs i

/-- Take the slice `b[lo..hi]`; invalid bounds are a Rust panic. -/
def getRange (b : List Nat) (lo hi : Nat) : Outcome (List Nat) :=
  if lo ≤ hi ∧ hi ≤ b.length then .ok ((b.take hi).drop lo) else .crash

/-- Write `b[i] = v`; an out-of-bounds index is a Rust panic. -/
def setByte (b : List Nat) (i v : Nat) : Outcome (List Nat) :=
  if i < b.length then .ok (b.set i v) else .crash

/-- Overwrite the slice `b[lo .. lo+xs.length]` with `xs`
(`copy_from_slice` on a subslice); out-of-bounds is a Rust panic. -/
def setRange (b : List Nat) (lo : Nat) (xs : List Nat) : Outcome (List Nat) :=
  if lo + xs.length ≤ b.length then
    .ok (b.take lo ++ xs ++ b.drop (lo + xs.length))
  else .crash

/-- Big-endian byte encoding of `v` into `w` bytes (`to_be_bytes`). -/
def beBytes : Nat → Nat → List Nat
  | 0, _ => []
  | w + 1, v => v / 256 ^ w % 256 :: beBytes w v

/-- Big-endian byte decoding (`from_be_bytes`). -/
def fromBe (bs : List Nat) : Nat :=
  bs.foldl (fun acc x => acc * 256 + x) 0

/-- The single-bit contribution of a boolean flag at bit position `k`. -/
def bitIf (b : Bool) (k : Nat) : Nat := if b then 2 ^ k else 0

/-- Extract bit `k` of a byte as a boolean. -/
def bitGet (byte k : Nat) : Bool := byte / 2 ^ k % 2 = 1

end Statime

namespace Statime

/-- `MessageType` (src/datastructures/messages; declared outside src, modelled
from the spec: closed set {Sync=0x0, DelayReq=0x1, PdelayReq=0x2, PdelayResp=0x3,
FollowUp=0x8, DelayResp=0x9, PdelayRespFollowUp=0xA, Announce=0xB,
Signaling=0xC, Management=0xD}). -/
inductive MessageType where
  | sync
  | delayReq
  | pdelayReq
  | pdelayResp
  | followUp
  | delayResp
  | pdelayRespFollowUp
  | announce
  | signaling
  | management
  deriving DecidableEq, Repr

/-- The on-wire value of a `MessageType` (`u8::from`). -/
def MessageType.toByte : MessageType → Nat
  | .sync => 0x0
  | .delayReq => 0x1
  | .pdelayReq => 0x2
  | .pdelayResp => 0x3
  | .followUp => 0x8
  | .delayResp => 0x9
  | .pdelayRespFollowUp => 0xA
  | .announce => 0xB
  | .signaling => 0xC
  | .management => 0xD

/-- Modelled from the spec: `TryFrom<u8>` for `MessageType`; unknown values
on deserialize give `InvalidEnumValue` (spec §4.1). -/
def MessageType.tryFrom (v : Nat) : Outcome MessageType :=
  match v with
  | 0x0 => .ok .sync
  | 0x1 => .ok .delayReq
  | 0x2 => .ok .pdelayReq
  | 0x3 => .ok .pdelayResp
  | 0x8 => .ok .followUp
  | 0x9 => .ok .delayResp
  | 0xA => .ok .pdelayRespFollowUp
  | 0xB => .ok .announce
  | 0xC => .ok .signaling
  | 0xD => .ok .management
  | v => .err (.invalidEnumValue .messageType v)

/-- `ControlField` (modelled from the spec: legacy 1-octet field derivable
from `MessageType`; `from_primitive` is total, `to_primitive` yields the
legacy code). -/
inductive ControlField where
  | sync
  | delayReq
  | followUp
  | delayResp
  | management
  | allOthers
  deriving DecidableEq, Repr

def ControlField.to_primitive : ControlField → Nat
  | .sync => 0x00
  | .delayReq => 0x01
  | .followUp => 0x02
  | .delayResp => 0x03
  | .management => 0x04
  | .allOthers => 0x05

def ControlField.from_primitive (v : Nat) : ControlField :=
  match v with
  | 0x00 => .sync
  | 0x01 => .delayReq
  | 0x02 => .followUp
  | 0x03 => .delayResp
  | 0x04 => .management
  | _ => .allOthers

/-- `FlagField` (declared outside src; modelled from the spec §3: 16 named
boolean flags, reserved positions serialized as 0; bit positions follow the
IEEE layout exercised by the header test vector: byte 0 bits 0/1/2/5/6 are
alternateMaster/twoStep/unicast/profileSpec1/profileSpec2, byte 1 bits 0-6
are leap61/leap59/utcOffsetValid/ptpTimescale/timeTraceable/
frequencyTraceable/synchronizationUncertain). -/
structure FlagField where
  alternate_master_flag : Bool
  two_step_flag : Bool
  unicast_flag : Bool
  ptp_profile_specific_1 : Bool
  ptp_profile_specific_2 : Bool
  leap61 : Bool
  leap59 : Bool
  current_utc_offset_valid : Bool
  ptp_timescale : Bool
  time_tracable : Bool
  frequency_tracable : Bool
  synchronization_uncertain : Bool
  deriving DecidableEq, Repr

/-- Modelled from the spec: serialize a `FlagField` into its two wire bytes. -/
def FlagField.serializeBytes (f : FlagField) : List Nat :=
  [bitIf f.alternate_master_flag 0 + bitIf f.two_step_flag 1 + bitIf f.unicast_flag 2 +
     bitIf f.ptp_profile_specific_1 5 + bitIf f.ptp_profile_specific_2 6,
   bitIf f.leap61 0 + bitIf f.leap59 1 + bitIf f.current_utc_offset_valid 2 +
     bitIf f.ptp_timescale 3 + bitIf f.time_tracable 4 + bitIf f.frequency_tracable 5 +
     bitIf f.synchronization_uncertain 6]

/-- Modelled from the spec: deserialize a `FlagField` from a two byte slice
(reading a missing byte is a panic, mirroring slice indexing). -/
def FlagField.deserializeBytes (bs : List Nat) : Outcome (FlagField × Nat) := do
  let b0 ← getByte bs 0
  let b1 ← getByte bs 1
  .ok ({ alternate_master_flag := bitGet b0 0
         two_step_flag := bitGet b0 1
         unicast_flag := bitGet b0 2
         ptp_profile_specific_1 := bitGet b0 5
         ptp_profile_specific_2 := bitGet b0 6
         leap61 := bitGet b1 0
         leap59 := bitGet b1 1
         current_utc_offset_valid := bitGet b1 2
         ptp_timescale := bitGet b1 3
         time_tracable := bitGet b1 4
         frequency_tracable := bitGet b1 5
         synchronization_uncertain := bitGet b1 6 }, 2)

/-- `TimeInterval` (declared outside src; modelled from the spec §3: signed
fixed-point, 48 integer and 16 fractional bits; `raw` is the i64 holding
`interval × 2^16`, which is the on-wire 64-bit two's-complement value). -/
structure TimeInterval where
  raw : Int
  deriving DecidableEq, Repr

/-- The i64 range constraint on the fixed-point representation. -/
def TimeInterval.wf (t : TimeInterval) : Prop :=
  -(2 ^ 63) ≤ t.raw ∧ t.raw < 2 ^ 63

/-- Modelled from the spec: 8-byte big-endian two's-complement encoding. -/
def TimeInterval.serializeBytes (t : TimeInterval) : List Nat :=
  beBytes 8 (t.raw % (2 ^ 64 : Int)).toNat

/-- Modelled from the spec: decode 8 big-endian bytes as an i64. -/
def TimeInterval.deserializeBytes (bs : List Nat) : Outcome (TimeInterval × Nat) :=
  if 8 ≤ bs.length then
    let n := fromBe (bs.take 8)
    .ok (⟨if n < 2 ^ 63 then (n : Int) else (n : Int) - 2 ^ 64⟩, 8)
  else .crash

/-- `ClockIdentity` (declared outside src; modelled from the spec §3:
8-octet opaque identifier). -/
structure ClockIdentity where
  id : List Nat
  deriving DecidableEq, Repr

def ClockIdentity.wf (c : ClockIdentity) : Prop :=
  c.id.length = 8 ∧ ∀ x ∈ c.id, x < 256

/-- `PortIdentity` (declared outside src; modelled from the spec §3:
ClockIdentity + 16-bit portNumber). -/
structure PortIdentity where
  clock_identity : ClockIdentity
  port_number : Nat
  deriving DecidableEq, Repr

def PortIdentity.wf (p : PortIdentity) : Prop :=
  p.clock_identity.wf ∧ p.port_number < 65536

/-- Modelled from the spec: 10-byte encoding, identity octets then the
big-endian port number. -/
def PortIdentity.serializeBytes (p : PortIdentity) : List Nat :=
  p.clock_identity.id ++ beBytes 2 p.port_number

/-- Modelled from the spec: decode ClockIdentity(8) + portNumber(2). -/
def PortIdentity.deserializeBytes (bs : List Nat) : Outcome (PortIdentity × Nat) := do
  let ci ← getRange bs 0 8
  let pn ← getRange bs 8 10
  .ok (⟨⟨ci⟩, fromBe pn⟩, 10)

end Statime

namespace Statime

/-- The PTP common message header (src/datastructures/messages/header.rs),
field for field. -/
structure Header where
  major_sdo_id : Nat
  message_type : MessageType
  minor_version_ptp : Nat
  version_ptp : Nat
  message_length : Nat
  domain_number : Nat
  minor_sdo_id : Nat
  flag_field : FlagField
  correction_field : TimeInterval
  message_type_specific : List Nat
  source_port_identity : PortIdentity
  sequence_id : Nat
  control_field : ControlField
  log_message_interval : Nat
  deriving DecidableEq, Repr

/-- Range constraints implied by the Rust field types of `Header`
(u8 / u16 / i64 fixed point / [u8; 4]). -/
def Header.wf (h : Header) : Prop :=
  h.major_sdo_id < 256 ∧ h.minor_version_ptp < 256 ∧ h.version_ptp < 256 ∧
    h.message_length < 65536 ∧ h.domain_number < 256 ∧ h.minor_sdo_id < 256 ∧
    h.correction_field.wf ∧
    h.message_type_specific.length = 4 ∧ (∀ x ∈ h.message_type_specific, x < 256) ∧
    h.source_port_identity.wf ∧ h.sequence_id < 65536 ∧ h.log_message_interval < 256

/-- `Header::serialize` (header.rs lines 28-43): sequential writes into the
caller's buffer at fixed offsets; on a too-short buffer the first
out-of-bounds write panics.  The two nibble pairs are written as
`(hi & 0x0F) << 4 | (lo & 0x0F)`, rendered here as `hi % 16 * 16 + lo % 16`
(the OR of disjoint nibbles is their sum). -/
def Header.serialize (h : Header) (buffer : List Nat) : Outcome (List Nat × Nat) := do
  let b ← setByte buffer 0 (h.major_sdo_id % 16 * 16 + h.message_type.toByte % 16)
  let b ← setByte b 1 (h.minor_version_ptp % 16 * 16 + h.version_ptp % 16)
  let b ← setRange b 2 (beBytes 2 h.message_length)
  let b ← setByte b 4 h.domain_number
  let b ← setByte b 5 h.minor_sdo_id
  let b ← setRange b 6 h.flag_field.serializeBytes
  let b ← setRange b 8 h.correction_field.serializeBytes
  let b ← setRange b 16 h.message_type_specific
  let b ← setRange b 20 h.source_port_identity.serializeBytes
  let b ← setRange b 30 (beBytes 2 h.sequence_id)
  let b ← setByte b 32 h.control_field.to_primitive
  let b ← setByte b 33 h.log_message_interval
  .ok (b, 34)

/-- `Header::deserialize` (header.rs lines 45-65): reads at fixed offsets in
Rust struct-literal evaluation order; unchecked indexing and slicing panic
on a too-short buffer. -/
def Header.deserialize (buffer : List Nat) : Outcome (Header × Nat) := do
  let b0a ← getByte buffer 0
  let major_sdo_id := b0a / 16 % 16
  let b0b ← getByte buffer 0
  let message_type ← MessageType.tryFrom (b0b % 16)
  let b1a ← getByte buffer 1
  let minor_version_ptp := b1a / 16 % 16
  let b1b ← getByte buffer 1
  let version_ptp := b1b % 16
  let ml ← getRange buffer 2 4
  let message_length := fromBe ml
  let domain_number ← getByte buffer 4
  let minor_sdo_id ← getByte buffer 5
  let fl ← getRange buffer 6 8
  let flag_field ← FlagField.deserializeBytes fl
  let co ← getRange buffer 8 16
  let correction_field ← TimeInterval.deserializeBytes co
  let message_type_specific ← getRange buffer 16 20
  let sp ← getRange buffer 20 30
  let source_port_identity ← PortIdentity.deserializeBytes sp
  let sq ← getRange buffer 30 32
  let sequence_id := fromBe sq
  let cf ← getByte buffer 32
  let control_field := ControlField.from_primitive cf
  let log_message_interval ← getByte buffer 33
  .ok
    ({ major_sdo_id := major_sdo_id
       message_type := message_type
       minor_version_ptp := minor_version_ptp
       version_ptp := version_ptp
       message_length := message_length
       domain_number := domain_number
       minor_sdo_id := minor_sdo_id
       flag_field := flag_field.1
       correction_field := correction_field.1
       message_type_specific := message_type_specific
       source_port_identity := source_port_identity.1
       sequence_id := sequence_id
       control_field := control_field
       log_message_interval := log_message_interval }, 34)

/-- The 34 bytes `Header::serialize` writes, as one list. -/
def Header.wire (h : Header) : List Nat :=
  [h.major_sdo_id % 16 * 16 + h.message_type.toByte % 16,
   h.minor_version_ptp % 16 * 16 + h.version_ptp % 16] ++
    beBytes 2 h.message_length ++
    [h.domain_number, h.minor_sdo_id] ++
    h.flag_field.serializeBytes ++
    h.correction_field.serializeBytes ++
    h.message_type_specific ++
    h.source_port_identity.serializeBytes ++
    beBytes 2 h.sequence_id ++
    [h.control_field.to_primitive, h.log_message_interval]

/-- The header with its three nibble-sized fields reduced modulo 16, which is
what `serialize` masks them to. -/
def Header.maskNibbles (h : Header) : Header :=
  { h with
    major_sdo_id := h.major_sdo_id % 16
    minor_version_ptp := h.minor_version_ptp % 16
    version_ptp := h.version_ptp % 16 }

/-- Serialize into a buffer, then deserialize the written buffer
(the round trip the spec's §8 invariant is about). -/
def Header.serThenDeser (h : Header) (buffer : List Nat) : Outcome (Header × Nat) :=
  match h.serialize buffer with
  | .ok (out, _) => Header.deserialize out
  | .err e => .err e
  | .crash => .crash

end Statime

namespace Statime

theorem length_beBytes (w v : Nat) : (beBytes w v).length = w := by
  induction w generalizing v with
  | zero => rfl
  | succ k ih => simp [beBytes, ih]

theorem setByte_eq_setRange (b : List Nat) (i v : Nat) :
    setByte b i v = setRange b i [v] := by
  unfold setByte setRange
  by_cases h : i < b.length
  · rw [if_pos h, if_pos (by simpa using h)]
    rw [List.set_eq_take_cons_drop v h]
    simp
  · rw [if_neg h, if_neg (by simp; omega)]

theorem setRange_setRange (b : List Nat) (o : Nat) (xs ys : List Nat) :
    Outcome.bind (setRange b o xs) (fun b2 => setRange b2 (o + xs.length) ys)
      = setRange b o (xs ++ ys) := by
  unfold setRange
  by_cases h1 : o + xs.length ≤ b.length
  · rw [if_pos h1, Outcome.bind_ok]
    have hto : (b.take o).length = o := by rw [List.length_take]; omega
    have hlen2 : (b.take o ++ xs ++ b.drop (o + xs.length)).length = b.length := by
      simp only [List.length_append, List.length_drop, hto]
      omega
    by_cases h2 : o + xs.length + ys.length ≤ b.length
    · rw [if_pos (by rw [hlen2]; omega), if_pos (by simp only [List.length_append]; omega)]
      have hpre : (b.take o ++ xs).length = o + xs.length := by
        simp only [List.length_append, hto]
      have hA : ((b.take o ++ xs) ++ b.drop (o + xs.length)).take (o + xs.length)
          = b.take o ++ xs := by
        rw [← hpre, List.take_left]
      have hB : ((b.take o ++ xs) ++ b.drop (o + xs.length)).drop (o + xs.length + ys.length)
          = b.drop (o + xs.length + ys.length) := by
        rw [List.drop_append_eq_append_drop, hpre,
          List.drop_eq_nil_of_le (by omega), List.drop_drop]
        simp only [List.nil_append]
        congr 1
        omega
      rw [show b.take o ++ xs ++ b.drop (o + xs.length)
            = (b.take o ++ xs) ++ b.drop (o + xs.length) from rfl]
      rw [hA, hB]
      simp [List.append_assoc, Nat.add_assoc]
    · rw [if_neg (by rw [hlen2]; omega), if_neg (by simp only [List.length_append]; omega)]
  · rw [if_neg h1, if_neg (by simp only [List.length_append]; omega), Outcome.bind_crash]

theorem outcome_bind_assoc {α β γ : Type} (m : Outcome α) (f : α → Outcome β)
    (g : β → Outcome γ) :
    Outcome.bind (Outcome.bind m f) g = Outcome.bind m (fun a => Outcome.bind (f a) g) := by
  cases m <;> rfl

theorem setRange_merge {β : Type} (b : List Nat) (o o2 : Nat) (xs ys : List Nat)
    (k : List Nat → Outcome β) (heq : o2 = o + xs.length) :
    Outcome.bind (setRange b o xs) (fun b2 => Outcome.bind (setRange b2 o2 ys) k)
      = Outcome.bind (setRange b o (xs ++ ys)) k := by
  subst heq
  rw [← setRange_setRange, outcome_bind_assoc]

end Statime

namespace Statime

theorem Header.serialize_of_length (h : Header) (b : List Nat)
    (hmts : h.message_type_specific.length = 4)
    (hci : h.source_port_identity.clock_identity.id.length = 8)
    (hlen : 34 ≤ b.length) :
    h.serialize b = .ok (h.wire ++ b.drop 34, 34) := by
  unfold Header.serialize
  simp only [Outcome.bind_eq, setByte_eq_setRange]
  rw [setRange_merge, setRange_merge, setRange_merge, setRange_merge, setRange_merge,
    setRange_merge, setRange_merge, setRange_merge, setRange_merge, setRange_merge,
    setRange_merge]
  · unfold setRange
    rw [if_pos]
    · simp only [List.take_zero, List.nil_append, Outcome.bind_ok]
      simp [Header.wire, List.append_assoc, List.length_append, length_beBytes,
        FlagField.serializeBytes, TimeInterval.serializeBytes, PortIdentity.serializeBytes,
        hmts, hci]
    · simp only [List.length_append, List.length_cons, List.length_nil, length_beBytes,
        FlagField.serializeBytes, TimeInterval.serializeBytes, PortIdentity.serializeBytes,
        hmts, hci]
      omega
  all_goals
    simp only [List.length_append, List.length_cons, List.length_nil, length_beBytes,
      FlagField.serializeBytes, TimeInterval.serializeBytes, PortIdentity.serializeBytes,
      hmts, hci]

end Statime

namespace Statime

theorem list_len4 {α : Type} (l : List α) (h : l.length = 4) :
    ∃ a0 a1 a2 a3, l = [a0, a1, a2, a3] := by
  obtain ⟨a0, l, rfl⟩ := List.exists_of_length_succ l h
  simp only [List.length_cons] at h
  obtain ⟨a1, l, rfl⟩ := List.exists_of_length_succ l (show l.length = 3 by omega)
  simp only [List.length_cons] at h
  obtain ⟨a2, l, rfl⟩ := List.exists_of_length_succ l (show l.length = 2 by omega)
  simp only [List.length_cons] at h
  obtain ⟨a3, l, rfl⟩ := List.exists_of_length_succ l (show l.length = 1 by omega)
  simp only [List.length_cons] at h
  obtain rfl : l = [] := List.length_eq_zero.mp (by omega)
  exact ⟨a0, a1, a2, a3, rfl⟩

theorem list_len8 {α : Type} (l : List α) (h : l.length = 8) :
    ∃ a0 a1 a2 a3 a4 a5 a6 a7, l = [a0, a1, a2, a3, a4, a5, a6, a7] := by
  obtain ⟨a0, l, rfl⟩ := List.exists_of_length_succ l h
  simp only [List.length_cons] at h
  obtain ⟨a1, l, rfl⟩ := List.exists_of_length_succ l (show l.length = 7 by omega)
  simp only [List.length_cons] at h
  obtain ⟨a2, l, rfl⟩ := List.exists_of_length_succ l (show l.length = 6 by omega)
  simp only [List.length_cons] at h
  obtain ⟨a3, l, rfl⟩ := List.exists_of_length_succ l (show l.length = 5 by omega)
  simp only [List.length_cons] at h
  obtain ⟨a4, l, rfl⟩ := List.exists_of_length_succ l (show l.length = 4 by omega)
  simp only [List.length_cons] at h
  obtain ⟨a5, l, rfl⟩ := List.exists_of_length_succ l (show l.length = 3 by omega)
  simp only [List.length_cons] at h
  obtain ⟨a6, l, rfl⟩ := List.exists_of_length_succ l (show l.length = 2 by omega)
  simp only [List.length_cons] at h
  obtain ⟨a7, l, rfl⟩ := List.exists_of_length_succ l (show l.length = 1 by omega)
  simp only [List.length_cons] at h
  obtain rfl : l = [] := List.length_eq_zero.mp (by omega)
  exact ⟨a0, a1, a2, a3, a4, a5, a6, a7, rfl⟩

theorem MessageType.toByte_lt (mt : MessageType) : mt.toByte < 16 := by
  cases mt <;> decide

theorem MessageType.tryFrom_toByte (mt : MessageType) :
    MessageType.tryFrom mt.toByte = .ok mt := by
  cases mt <;> rfl

theorem ControlField.from_to (c : ControlField) :
    ControlField.from_primitive c.to_primitive = c := by
  cases c <;> rfl

theorem bitGet_f0_0 (a b c d e : Bool) :
    bitGet (bitIf a 0 + bitIf b 1 + bitIf c 2 + bitIf d 5 + bitIf e 6) 0 = a := by
  revert a b c d e; decide

theorem bitGet_f0_1 (a b c d e : Bool) :
    bitGet (bitIf a 0 + bitIf b 1 + bitIf c 2 + bitIf d 5 + bitIf e 6) 1 = b := by
  revert a b c d e; decide

theorem bitGet_f0_2 (a b c d e : Bool) :
    bitGet (bitIf a 0 + bitIf b 1 + bitIf c 2 + bitIf d 5 + bitIf e 6) 2 = c := by
  revert a b c d e; decide

theorem bitGet_f0_5 (a b c d e : Bool) :
    bitGet (bitIf a 0 + bitIf b 1 + bitIf c 2 + bitIf d 5 + bitIf e 6) 5 = d := by
  revert a b c d e; decide

theorem bitGet_f0_6 (a b c d e : Bool) :
    bitGet (bitIf a 0 + bitIf b 1 + bitIf c 2 + bitIf d 5 + bitIf e 6) 6 = e := by
  revert a b c d e; decide

theorem bitGet_f1_0 (a b c d e f g : Bool) :
    bitGet (bitIf a 0 + bitIf b 1 + bitIf c 2 + bitIf d 3 + bitIf e 4 + bitIf f 5 +
      bitIf g 6) 0 = a := by
  revert a b c d e f g; decide

theorem bitGet_f1_1 (a b c d e f g : Bool) :
    bitGet (bitIf a 0 + bitIf b 1 + bitIf c 2 + bitIf d 3 + bitIf e 4 + bitIf f 5 +
      bitIf g 6) 1 = b := by
  revert a b c d e f g; decide

theorem bitGet_f1_2 (a b c d e f g : Bool) :
    bitGet (bitIf a 0 + bitIf b 1 + bitIf c 2 + bitIf d 3 + bitIf e 4 + bitIf f 5 +
      bitIf g 6) 2 = c := by
  revert a b c d e f g; decide

theorem bitGet_f1_3 (a b c d e f g : Bool) :
    bitGet (bitIf a 0 + bitIf b 1 + bitIf c 2 + bitIf d 3 + bitIf e 4 + bitIf f 5 +
      bitIf g 6) 3 = d := by
  revert a b c d e f g; decide

theorem bitGet_f1_4 (a b c d e f g : Bool) :
    bitGet (bitIf a 0 + bitIf b 1 + bitIf c 2 + bitIf d 3 + bitIf e 4 + bitIf f 5 +
      bitIf g 6) 4 = e := by
  revert a b c d e f g; decide

theorem bitGet_f1_5 (a b c d e f g : Bool) :
    bitGet (bitIf a 0 + bitIf b 1 + bitIf c 2 + bitIf d 3 + bitIf e 4 + bitIf f 5 +
      bitIf g 6) 5 = f := by
  revert a b c d e f g; decide

theorem bitGet_f1_6 (a b c d e f g : Bool) :
    bitGet (bitIf a 0 + bitIf b 1 + bitIf c 2 + bitIf d 3 + bitIf e 4 + bitIf f 5 +
      bitIf g 6) 6 = g := by
  revert a b c d e f g; decide

end Statime

namespace Statime

theorem fold8_nat (x : Nat) (h : x < 18446744073709551616) :
    ((((((x / 72057594037927936 % 256 * 256 + x / 281474976710656 % 256) * 256 +
      x / 1099511627776 % 256) * 256 + x / 4294967296 % 256) * 256 +
      x / 16777216 % 256) * 256 + x / 65536 % 256) * 256 + x / 256 % 256) * 256 +
      x % 256 = x := by
  omega

theorem fold8_int (x : Int) (h1 : 0 ≤ x) (h2 : x < 18446744073709551616) :
    ((((((x / 72057594037927936 % 256 * 256 + x / 281474976710656 % 256) * 256 +
      x / 1099511627776 % 256) * 256 + x / 4294967296 % 256) * 256 +
      x / 16777216 % 256) * 256 + x / 65536 % 256) * 256 + x / 256 % 256) * 256 +
      x % 256 = x := by
  omega

set_option maxHeartbeats 1000000 in
theorem Header.deserialize_wire (h : Header) (hwf : h.wf) :
    Header.deserialize h.wire = .ok (h.maskNibbles, 34) := by
  obtain ⟨maj, mt, minv, ver, ml, dn, msdo, ff, corr, mts, spi, seq, cf, lmi⟩ := h
  obtain ⟨hmaj, hminv, hver, hml, hdn, hmsdo, hcorr, hmts, hmtsb, hspi, hseq, hlmi⟩ := hwf
  obtain ⟨m0, m1, m2, m3, rfl⟩ := list_len4 mts hmts
  obtain ⟨ci, pn⟩ := spi
  obtain ⟨cil⟩ := ci
  obtain ⟨⟨hci8, hcib⟩, hpn⟩ := hspi
  obtain ⟨c0, c1, c2, c3, c4, c5, c6, c7, rfl⟩ := list_len8 cil hci8
  obtain ⟨craw⟩ := corr
  obtain ⟨hcl, hcu⟩ := hcorr
  simp only [Header.wf] at *
  have hmtb := MessageType.toByte_lt mt
  simp [Header.wire, FlagField.serializeBytes, TimeInterval.serializeBytes,
    PortIdentity.serializeBytes, beBytes, Header.deserialize, getByte, getRange,
    FlagField.deserializeBytes, TimeInterval.deserializeBytes,
    PortIdentity.deserializeBytes, fromBe, Header.maskNibbles, ControlField.from_to,
    bitGet_f0_0, bitGet_f0_1, bitGet_f0_2, bitGet_f0_5, bitGet_f0_6,
    bitGet_f1_0, bitGet_f1_1, bitGet_f1_2, bitGet_f1_3, bitGet_f1_4, bitGet_f1_5,
    bitGet_f1_6]
  rw [show (maj % 16 * 16 + mt.toByte) % 16 = mt.toByte from by omega]
  rw [MessageType.tryFrom_toByte]
  have hn1 : (0 : Int) ≤ craw % 18446744073709551616 :=
    Int.emod_nonneg craw (by norm_num)
  have hn2 : craw % 18446744073709551616 < 18446744073709551616 :=
    Int.emod_lt_of_pos craw (by norm_num)
  have hmax : craw % (18446744073709551616 : Int) ⊔ 0 = craw % 18446744073709551616 :=
    max_eq_left hn1
  simp only [Outcome.bind_ok, Outcome.ok.injEq, Prod.mk.injEq, Header.mk.injEq,
    TimeInterval.mk.injEq, PortIdentity.mk.injEq, ClockIdentity.mk.injEq, hmax,
    and_true, true_and]
  rw [fold8_int (craw % 18446744073709551616) hn1 hn2]
  repeat' apply And.intro
  · omega
  · omega
  · omega
  · omega
  · split <;> omega
  · omega
  · omega

end Statime

namespace Statime

/-- The header test vector from header.rs (also spec §8 scenario 1). -/
def sampleHeader : Header :=
  { major_sdo_id := 0x5
    message_type := .delayResp
    minor_version_ptp := 0xA
    version_ptp := 0x1
    message_length := 0x1234
    domain_number := 0xAA
    minor_sdo_id := 0xBB
    flag_field :=
      { alternate_master_flag := true
        two_step_flag := false
        unicast_flag := true
        ptp_profile_specific_1 := false
        ptp_profile_specific_2 := true
        leap61 := false
        leap59 := true
        current_utc_offset_valid := false
        ptp_timescale := true
        time_tracable := false
        frequency_tracable := true
        synchronization_uncertain := false }
    correction_field := ⟨98304⟩
    message_type_specific := [5, 6, 7, 8]
    source_port_identity := ⟨⟨[0, 1, 2, 3, 4, 5, 6, 7]⟩, 0x5555⟩
    sequence_id := 0xDEAD
    control_field := .followUp
    log_message_interval := 0x16 }

theorem Header.maskNibbles_eq_self (h : Header) (h1 : h.major_sdo_id < 16)
    (h2 : h.minor_version_ptp < 16) (h3 : h.version_ptp < 16) :
    h.maskNibbles = h := by
  obtain ⟨maj, mt, minv, ver, ml, dn, msdo, ff, corr, mts, spi, seq, cf, lmi⟩ := h
  simp only [Header.maskNibbles, Header.mk.injEq, and_true, true_and]
  simp only at h1 h2 h3
  refine ⟨?_, ?_, ?_⟩ <;> omega

theorem Header.serThenDeser_eq (h : Header) (b : List Nat) (hwf : h.wf)
    (hb : b.length = 34) :
    h.serThenDeser b = .ok (h.maskNibbles, 34) ∧
      Outcome.map Prod.snd (h.serialize b) = .ok 34 := by
  have hs := Header.serialize_of_length h b hwf.2.2.2.2.2.2.2.1
    hwf.2.2.2.2.2.2.2.2.2.1.1.1 (by omega)
  have hnil : b.drop 34 = [] := List.drop_eq_nil_of_le (by omega)
  rw [hnil, List.append_nil] at hs
  constructor
  · unfold Header.serThenDeser
    rw [hs]
    exact Header.deserialize_wire h hwf
  · rw [hs]
    rfl

/-- Claim C1: for every Header whose nibble-sized fields (major_sdo_id,
minor_version_ptp, version_ptp) are within range, serializing into a 34-byte
buffer and then deserializing the written buffer returns exactly the original
header, and both directions report 34 bytes. -/
theorem claim_C1 (h : Header) (b : List Nat) (hwf : h.wf)
    (h1 : h.major_sdo_id < 16) (h2 : h.minor_version_ptp < 16) (h3 : h.version_ptp < 16)
    (hb : b.length = 34) :
    h.serThenDeser b = .ok (h, 34) ∧ Outcome.map Prod.snd (h.serialize b) = .ok 34 := by
  have := Header.serThenDeser_eq h b hwf hb
  rwa [Header.maskNibbles_eq_self h h1 h2 h3] at this

/-- Claim C1 witness: the round trip at the header.rs test vector. -/
theorem claim_C1_witness :
    sampleHeader.serThenDeser (List.replicate 34 0) = .ok (sampleHeader, 34) ∧
      Outcome.map Prod.snd (sampleHeader.serialize (List.replicate 34 0)) = .ok 34 :=
  claim_C1 sampleHeader (List.replicate 34 0)
    (by simp only [Header.wf, TimeInterval.wf, PortIdentity.wf, ClockIdentity.wf]; decide)
    (by decide) (by decide) (by decide) (by decide)

/-- Claim C9: serialize masks the three nibble fields to their low 4 bits, so
for a header in which any of them exceeds 0x0F, serialize-then-deserialize
returns the header with those fields reduced modulo 16, different from the
original. -/
theorem claim_C9 (h : Header) (b : List Nat) (hwf : h.wf)
    (hex : 15 < h.major_sdo_id ∨ 15 < h.minor_version_ptp ∨ 15 < h.version_ptp)
    (hb : b.length = 34) :
    h.serThenDeser b = .ok (h.maskNibbles, 34) ∧ h.maskNibbles ≠ h := by
  refine ⟨(Header.serThenDeser_eq h b hwf hb).1, fun heq => ?_⟩
  rcases hex with hx | hx | hx
  · have := congrArg Header.major_sdo_id heq
    simp only [Header.maskNibbles] at this
    omega
  · have := congrArg Header.minor_version_ptp heq
    simp only [Header.maskNibbles] at this
    omega
  · have := congrArg Header.version_ptp heq
    simp only [Header.maskNibbles] at this
    omega

/-- Claim C9 witness: the test vector with major_sdo_id = 0x15 comes back
with its nibble fields masked, a different header. -/
theorem claim_C9_witness :
    ({ sampleHeader with major_sdo_id := 0x15 } : Header).serThenDeser
          (List.replicate 34 0)
        = .ok (({ sampleHeader with major_sdo_id := 0x15 } : Header).maskNibbles, 34) ∧
      ({ sampleHeader with major_sdo_id := 0x15 } : Header).maskNibbles
        ≠ { sampleHeader with major_sdo_id := 0x15 } :=
  claim_C9 { sampleHeader with major_sdo_id := 0x15 } (List.replicate 34 0)
    (by simp only [Header.wf, TimeInterval.wf, PortIdentity.wf, ClockIdentity.wf]; decide)
    (by decide) (by decide)

end Statime

namespace Statime

theorem MessageType.tryFrom_invalid (v : Nat) (hv : v < 16)
    (hbad : v ∉ ([0x0, 0x1, 0x2, 0x3, 0x8, 0x9, 0xA, 0xB, 0xC, 0xD] : List Nat)) :
    MessageType.tryFrom v = .err (.invalidEnumValue .messageType v) := by
  interval_cases v <;> simp_all [MessageType.tryFrom]

/-- Claim C3 (code behaviour at the failing inputs): on every zero-filled
buffer shorter than 34 bytes, `Header::deserialize` panics on an
out-of-bounds read (it does not return `BufferTooShort`), and
`Header::serialize` panics on an out-of-bounds write. -/
theorem claim_C3 (n : Nat) (hn : n < 34) :
    Header.deserialize (List.replicate n 0) = .crash ∧
      Header.serialize sampleHeader (List.replicate n 0) = .crash := by
  interval_cases n <;> exact ⟨rfl, rfl⟩

/-- Claim C3 witness: both operations panic on a 33-byte buffer. -/
theorem claim_C3_witness :
    Header.deserialize (List.replicate 33 0) = .crash ∧
      Header.serialize sampleHeader (List.replicate 33 0) = .crash :=
  claim_C3 33 (by decide)

/-- Claim C6: any 34-byte buffer whose first byte has a message-type nibble
outside the defined set deserializes to `InvalidEnumValue(MessageType, nibble)`
and yields no header. -/
theorem claim_C6 (buf : List Nat) (hlen : buf.length = 34) (b0 : Nat)
    (hb0 : getByte buf 0 = .ok b0)
    (hbad : b0 % 16 ∉ ([0x0, 0x1, 0x2, 0x3, 0x8, 0x9, 0xA, 0xB, 0xC, 0xD] : List Nat)) :
    Header.deserialize buf = .err (.invalidEnumValue .messageType (b0 % 16)) := by
  unfold Header.deserialize
  simp only [Outcome.bind_eq, hb0, Outcome.bind_ok]
  rw [MessageType.tryFrom_invalid (b0 % 16) (Nat.mod_lt b0 (by omega)) hbad]
  rfl

/-- Claim C6 witness: byte[0] = 0x5E (messageType nibble 0xE) gives
`InvalidEnumValue(MessageType, 0xE)`. -/
theorem claim_C6_witness :
    Header.deserialize (0x5E :: List.replicate 33 0)
      = .err (.invalidEnumValue .messageType 0xE) :=
  claim_C6 (0x5E :: List.replicate 33 0) (by decide) 0x5E rfl (by decide)

end Statime

namespace Statime

/-- `ClockQuality` (modelled from the spec §3: clockClass u8, clockAccuracy u8,
offsetScaledLogVariance u16). -/
structure ClockQuality where
  clock_class : Nat
  clock_accuracy : Nat
  offset_scaled_log_variance : Nat
  deriving DecidableEq, Repr

/-- `DefaultDS` (modelled from the spec §4.2: the instance-wide dataset; the
payload carried by the BMCA M1/M2/M3 recommendations). -/
structure DefaultDS where
  two_step_flag : Bool
  clock_identity : ClockIdentity
  number_ports : Nat
  clock_quality : ClockQuality
  priority_1 : Nat
  priority_2 : Nat
  domain_number : Nat
  slave_only : Bool
  deriving DecidableEq, Repr

/-- `AnnounceMessage` (modelled from the spec §4.1: header plus the Announce
body fields; `set_recommended_port_state` reads only
`header().source_port_identity()`). -/
structure AnnounceMessage where
  header : Header
  current_utc_offset : Int
  grandmaster_priority_1 : Nat
  grandmaster_clock_quality : ClockQuality
  grandmaster_priority_2 : Nat
  grandmaster_identity : ClockIdentity
  steps_removed : Nat
  time_source : Nat
  deriving DecidableEq, Repr

/-- `AnnounceMessage::header().source_port_identity()`. -/
def AnnounceMessage.source_port_identity (a : AnnounceMessage) : PortIdentity :=
  a.header.source_port_identity

/-- `SlaveState` (modelled from the spec §9: the Slave variant carries the
remote master identity; `SlaveState::new(remote_master)` stores it and the
comparison in the S1 branch reads it back via `remote_master()`). -/
structure SlaveState where
  remote_master : PortIdentity
  deriving DecidableEq, Repr

def SlaveState.new (remote_master : PortIdentity) : SlaveState :=
  ⟨remote_master⟩

/-- `MasterState` (modelled from the spec §9: the Master variant carries the
announce and sync sequence counters; `MasterState::new()` zeroes them). -/
structure MasterState where
  announce_seq_id : Nat
  sync_seq_id : Nat
  deriving DecidableEq, Repr

def MasterState.new : MasterState := ⟨0, 0⟩

/-- `PortState` (modelled from the spec §4.5 state list; the Slave and Master
variants carry their state payloads). -/
inductive PortState where
  | initializing
  | faulty
  | disabled
  | listening
  | preMaster
  | master (s : MasterState)
  | passive
  | uncalibrated
  | slave (s : SlaveState)
  deriving DecidableEq, Repr

/-- Dispatch over the state tag: is this state `Master(_)`? -/
def PortState.isMaster : PortState → Bool
  | .master _ => true
  | _ => false

/-- `RecommendedState` (modelled from the spec §4.3: S1 carries the best
Announce, M1/M2/M3 carry the own DefaultDS, P1/P2 carry the Announce). -/
inductive RecommendedState where
  | m1 (d : DefaultDS)
  | m2 (d : DefaultDS)
  | m3 (d : DefaultDS)
  | p1 (a : AnnounceMessage)
  | p2 (a : AnnounceMessage)
  | s1 (a : AnnounceMessage)
  deriving DecidableEq, Repr

/-- The announce-receipt `Ticker` (modelled from the spec §4.5 timers): the
only operation `set_recommended_port_state` performs on it is `reset()`;
the model counts resets. -/
abbrev Ticker := Nat

def Ticker.reset (t : Ticker) : Ticker := t + 1

/-- `DelayMechanism` (port.rs lines 167-174). -/
inductive DelayMechanism where
  | e2e
  | p2p
  | noMechanism
  | commonP2p
  | special
  deriving DecidableEq, Repr

/-- Durations as rational numbers of seconds.
`Duration::from_log_interval` is declared outside src; modelled from the
spec §3: `Duration::from_log_interval(e) = 2^e` seconds (e may be negative). -/
abbrev Duration := ℚ

def Duration.from_log_interval (e : Int) : Duration := 2 ^ e

/-- Rust `as i8` conversion of a u8 value (two's-complement wrap). -/
def asI8 (n : Nat) : Int := if n < 128 then (n : Int) else (n : Int) - 256

/-- Wrap an integer into the i8 range (release-mode overflow semantics of the
i8 multiplication in `announce_receipt_interval`). -/
def wrapI8 (x : Int) : Int := (x + 128) % 256 - 128

/-- `PortDS` (port.rs lines 10-26), field for field. -/
structure PortDS where
  port_identity : PortIdentity
  port_state : PortState
  log_min_delay_req_interval : Int
  mean_link_delay : Duration
  log_announce_interval : Int
  announce_receipt_timeout : Nat
  log_sync_interval : Int
  delay_mechanism : DelayMechanism
  log_min_p_delay_req_interval : Int
  version_number : Nat
  minor_version_number : Nat
  delay_asymmetry : Duration
  port_enable : Bool
  master_only : Bool
  deriving DecidableEq, Repr

/-- `PortDS::new` (port.rs lines 29-63); the `P2P`/`CommonP2p` arms hit
`unimplemented!`, modelled as `none`. -/
def PortDS.new (port_identity : PortIdentity) (log_min_delay_req_interval : Int)
    (log_announce_interval : Int) (announce_receipt_timeout : Nat)
    (log_sync_interval : Int) (delay_mechanism : DelayMechanism)
    (log_min_p_delay_req_interval : Int) (version_number : Nat)
    (minor_version_number : Nat) : Option PortDS :=
  match delay_mechanism with
  | .e2e | .noMechanism | .special =>
    some
      { port_identity := port_identity
        port_state := .listening
        log_min_delay_req_interval := log_min_delay_req_interval
        mean_link_delay := 0
        log_announce_interval := log_announce_interval
        announce_receipt_timeout := announce_receipt_timeout
        log_sync_interval := log_sync_interval
        delay_mechanism := delay_mechanism
        log_min_p_delay_req_interval := log_min_p_delay_req_interval
        version_number := version_number
        minor_version_number := minor_version_number
        delay_asymmetry := 0
        port_enable := true
        master_only := false }
  | .p2p | .commonP2p => none

/-- `PortDS::announce_interval` (port.rs lines 69-71). -/
def PortDS.announce_interval (p : PortDS) : Duration :=
  Duration.from_log_interval p.log_announce_interval

/-- `PortDS::announce_receipt_interval` (port.rs lines 82-86): note the
source computes `from_log_interval(announce_receipt_timeout as i8 *
log_announce_interval)`, i.e. the product sits in the exponent. -/
def PortDS.announce_receipt_interval (p : PortDS) : Duration :=
  Duration.from_log_interval
    (wrapI8 (asI8 p.announce_receipt_timeout * p.log_announce_interval))

/-- `PortDS::set_forced_port_state` (port.rs lines 100-103); the log line has
no observable effect on the dataset. -/
def PortDS.set_forced_port_state (p : PortDS) (state : PortState) : PortDS :=
  { p with port_state := state }

/-- `PortDS::set_recommended_port_state` (port.rs lines 105-164); the
`unimplemented!` arms for Initializing/Faulty are modelled as `none`, and the
announce-receipt ticker is threaded through explicitly. -/
def PortDS.set_recommended_port_state (p : PortDS)
    (recommended_state : RecommendedState) (announce_receipt_timeout : Ticker) :
    Option (PortDS × Ticker) :=
  match recommended_state with
  | .s1 announce_message =>
    let remote_master := announce_message.source_port_identity
    let state := PortState.slave (SlaveState.new remote_master)
    match p.port_state with
    | .listening | .uncalibrated | .preMaster | .master _ | .passive =>
      some (p.set_forced_port_state state, announce_receipt_timeout.reset)
    | .slave old_state =>
      if old_state.remote_master ≠ remote_master then
        some (p.set_forced_port_state state, announce_receipt_timeout.reset)
      else
        some (p, announce_receipt_timeout)
    | .disabled => some (p, announce_receipt_timeout)
    | .initializing | .faulty => none
  | .m1 _ | .m2 _ | .m3 _ =>
    match p.port_state with
    | .listening | .uncalibrated | .slave _ | .passive =>
      some (p.set_forced_port_state (.master MasterState.new), announce_receipt_timeout)
    | .preMaster | .master _ | .disabled => some (p, announce_receipt_timeout)
    | .initializing | .faulty => none
  | .p1 _ | .p2 _ =>
    match p.port_state with
    | .listening | .uncalibrated | .slave _ | .preMaster | .master _ =>
      some (p.set_forced_port_state .passive, announce_receipt_timeout)
    | .passive | .disabled => some (p, announce_receipt_timeout)
    | .initializing | .faulty => none

end Statime

namespace Statime

/-- A concrete port identity for witnesses. -/
def pid0 : PortIdentity := ⟨⟨[0, 1, 2, 3, 4, 5, 6, 7]⟩, 1⟩

/-- A concrete remote master identity. -/
def pidA : PortIdentity := ⟨⟨[10, 10, 10, 10, 10, 10, 10, 10]⟩, 1⟩

/-- A different concrete remote master identity. -/
def pidB : PortIdentity := ⟨⟨[11, 11, 11, 11, 11, 11, 11, 11]⟩, 1⟩

/-- A concrete clock quality for witnesses. -/
def cq0 : ClockQuality := ⟨248, 0xFE, 0xFFFF⟩

/-- A concrete DefaultDS payload for the M1/M2/M3 recommendations. -/
def dds0 : DefaultDS := ⟨true, ⟨[0, 1, 2, 3, 4, 5, 6, 7]⟩, 1, cq0, 128, 128, 0, false⟩

/-- An Announce message whose header carries the given source port identity. -/
def announceFrom (pid : PortIdentity) : AnnounceMessage :=
  { header := { sampleHeader with message_type := .announce, source_port_identity := pid }
    current_utc_offset := 37
    grandmaster_priority_1 := 128
    grandmaster_clock_quality := cq0
    grandmaster_priority_2 := 128
    grandmaster_identity := ⟨[0, 1, 2, 3, 4, 5, 6, 7]⟩
    steps_removed := 0
    time_source := 0xA0 }

/-- The PortDS produced by `PortDS::new(pid0, 0, 1, 3, 0, E2E, 0, 2, 1)`. -/
def portBase : PortDS :=
  { port_identity := pid0
    port_state := .listening
    log_min_delay_req_interval := 0
    mean_link_delay := 0
    log_announce_interval := 1
    announce_receipt_timeout := 3
    log_sync_interval := 0
    delay_mechanism := .e2e
    log_min_p_delay_req_interval := 0
    version_number := 2
    minor_version_number := 1
    delay_asymmetry := 0
    port_enable := true
    master_only := false }

/-- A port forced into the PreMaster state. -/
def portPreMaster : PortDS := portBase.set_forced_port_state .preMaster

/-- A port in Slave state with remote master pidA. -/
def portSlaveA : PortDS := portBase.set_forced_port_state (.slave (SlaveState.new pidA))

/-- Claim C2 (code behaviour at the spec's example): with
announceReceiptTimeout = 3 and logAnnounceInterval = 1 the code computes
`2^(3·1) = 8` seconds, while the spec formula
`announceReceiptTimeout × 2^logAnnounceInterval` gives `3 × 2^1 = 6` seconds. -/
theorem claim_C2 :
    (PortDS.new pid0 0 1 3 0 .e2e 0 2 1).map PortDS.announce_receipt_interval
        = some (8 : ℚ) ∧
      (3 : ℚ) * 2 ^ (1 : Int) = 6 ∧ (8 : ℚ) ≠ 6 := by
  refine ⟨?_, by norm_num, by norm_num⟩
  simp only [PortDS.new, Option.map_some]
  simp [PortDS.announce_receipt_interval, Duration.from_log_interval, asI8, wrapI8]
  norm_num

/-- Claim C4 counterexample: a PortDS in PreMaster given recommendation M1
stays in PreMaster; the resulting state is not Master. -/
theorem claim_C4_counterexample :
    (portPreMaster.set_recommended_port_state (.m1 dds0) 0).map
        (fun r => r.1.port_state) = some PortState.preMaster ∧
      (portPreMaster.set_recommended_port_state (.m1 dds0) 0).map
        (fun r => r.1.port_state.isMaster) = some false :=
  ⟨rfl, rfl⟩

/-- Claim C4 (amended): for every PortDS in PreMaster, recommendations M1, M2
and M3 are no-ops: the port stays in PreMaster and the ticker is untouched. -/
theorem claim_C4 (p : PortDS) (t : Ticker) (d : DefaultDS)
    (hp : p.port_state = .preMaster) :
    p.set_recommended_port_state (.m1 d) t = some (p, t) ∧
      p.set_recommended_port_state (.m2 d) t = some (p, t) ∧
      p.set_recommended_port_state (.m3 d) t = some (p, t) := by
  unfold PortDS.set_recommended_port_state
  rw [hp]
  exact ⟨rfl, rfl, rfl⟩

/-- Claim C4 witness: the concrete PreMaster port under M1/M2/M3. -/
theorem claim_C4_witness :
    portPreMaster.set_recommended_port_state (.m1 dds0) 0 = some (portPreMaster, 0) ∧
      portPreMaster.set_recommended_port_state (.m2 dds0) 0 = some (portPreMaster, 0) ∧
      portPreMaster.set_recommended_port_state (.m3 dds0) 0 = some (portPreMaster, 0) :=
  claim_C4 portPreMaster 0 dds0 rfl

/-- Claim C7: in Slave(X), recommendation S1 carrying an Announce from X'
reslaves (new Slave state with remote master X', ticker reset) exactly when
X' differs from X, and is a no-op (same dataset, same ticker) when X' = X. -/
theorem claim_C7 (p : PortDS) (s0 : SlaveState) (hp : p.port_state = .slave s0)
    (a : AnnounceMessage) (t : Ticker) :
    (a.source_port_identity ≠ s0.remote_master →
        p.set_recommended_port_state (.s1 a) t
          = some
              (p.set_forced_port_state (.slave (SlaveState.new a.source_port_identity)),
                t + 1)) ∧
      (a.source_port_identity = s0.remote_master →
        p.set_recommended_port_state (.s1 a) t = some (p, t)) := by
  unfold PortDS.set_recommended_port_state
  rw [hp]
  constructor
  · intro hne
    simp only [ne_eq, Ne.symm hne, not_false_iff, if_true, Ticker.reset]
  · intro heq
    simp only [ne_eq, heq, not_true, if_false]

/-- Claim C7 witness: the Slave(pidA) port reslaves on an Announce from pidB
and is untouched by an Announce from pidA. -/
theorem claim_C7_witness :
    (portSlaveA.set_recommended_port_state (.s1 (announceFrom pidB)) 0
        = some
            (portSlaveA.set_forced_port_state
              (.slave (SlaveState.new (announceFrom pidB).source_port_identity)), 1)) ∧
      portSlaveA.set_recommended_port_state (.s1 (announceFrom pidA)) 0
        = some (portSlaveA, 0) :=
  ⟨(claim_C7 portSlaveA (SlaveState.new pidA) rfl (announceFrom pidB) 0).1 (by decide),
    (claim_C7 portSlaveA (SlaveState.new pidA) rfl (announceFrom pidA) 0).2 rfl⟩

end Statime

namespace Statime

/-- `std::net::Ipv6Addr::new`: builds an address from eight 16-bit segments
(represented as the segment list). -/
def ipv6AddrNew (a b c d e f g h : Nat) : List Nat := [a, b, c, d, e, f, g, h]

/-- linux.rs line 46: `LinuxRuntime::IPV6_PRIMARY_MULTICAST`. -/
def IPV6_PRIMARY_MULTICAST : List Nat := ipv6AddrNew 0xFF 0x0E 0 0 0 0 0x01 0x81

/-- linux.rs line 47: `LinuxRuntime::IPV6_PDELAY_MULTICAST`. -/
def IPV6_PDELAY_MULTICAST : List Nat := ipv6AddrNew 0xFF 0x02 0 0 0 0 0 0x6B

/-- Modelled from the spec: the PTP primary IPv6 multicast group `FF0E::181`
(spec §6), as segments. -/
def specPrimaryMulticastV6 : List Nat := [0xFF0E, 0, 0, 0, 0, 0, 0, 0x0181]

/-- Modelled from the spec: the PTP pdelay IPv6 multicast group `FF02::6B`
(spec §6), as segments. -/
def specPdelayMulticastV6 : List Nat := [0xFF02, 0, 0, 0, 0, 0, 0, 0x006B]

/-- Claim C5 (code behaviour): the IPv6 group constants joined by `open` are
built by passing byte pairs where `Ipv6Addr::new` expects 16-bit segments, so
they are `00ff:000e::1:181` and `00ff:0002::6b`, not the spec's `FF0E::181`
and `FF02::6B`; their first segment is not even in the multicast range
`ff00::/8`. -/
theorem claim_C5 :
    IPV6_PRIMARY_MULTICAST ≠ specPrimaryMulticastV6 ∧
      IPV6_PDELAY_MULTICAST ≠ specPdelayMulticastV6 ∧
      IPV6_PRIMARY_MULTICAST = [0x00FF, 0x000E, 0, 0, 0, 0, 0x0001, 0x0081] ∧
      IPV6_PDELAY_MULTICAST = [0x00FF, 0x0002, 0, 0, 0, 0, 0, 0x006B] ∧
      IPV6_PRIMARY_MULTICAST.headD 0 / 256 = 0 ∧
      IPV6_PDELAY_MULTICAST.headD 0 / 256 = 0 := by
  refine ⟨by decide, by decide, rfl, rfl, rfl, rfl⟩

/-- The two clock readings delivered in a `ScmTimestampsns` control message
(after `timespec_into_instant`), linux.rs lines 431-443. -/
structure Timestamps where
  system : Int
  hw_raw : Int
  deriving DecidableEq, Repr

/-- A received ancillary control message: `ScmTimestampsns` or anything else
(linux.rs lines 433-435 match). -/
inductive ControlMessageOwned where
  | scmTimestampsns (t : Timestamps)
  | other
  deriving DecidableEq, Repr

/-- Whether a control message is the `ScmTimestampsns` one. -/
def ControlMessageOwned.isScm : ControlMessageOwned → Bool
  | .scmTimestampsns _ => true
  | .other => false

/-- linux.rs lines 431-436: `received.cmsgs().find_map(...)` looking for the
`ScmTimestampsns` control message. -/
def findTimestamps (cmsgs : List ControlMessageOwned) : Option Timestamps :=
  cmsgs.findSome? fun c =>
    match c with
    | .scmTimestampsns t => some t
    | .other => none

/-- linux.rs lines 431-444 (`try_recv_message_with_timestamp`): the timestamp
attached to a received packet: from the `ScmTimestampsns` control message when
present (`hw_raw` if hardware timestamping is enabled, `system` otherwise),
else `clock.now()`. -/
def recvTimestamp (cmsgs : List ControlMessageOwned) (hardware_timestamping : Bool)
    (clock_now : Int) : Int :=
  ((findTimestamps cmsgs).map fun timestamps =>
      if hardware_timestamping then timestamps.hw_raw else timestamps.system).getD
    clock_now

/-- Claim C8: when no ScmTimestampsns control message is present in the
received ancillary data, the packet timestamp is the software clock read
`clock.now()`; when it is present, the hardware timestamp is used if hardware
timestamping is enabled and the system timestamp otherwise. -/
theorem claim_C8 (cmsgs : List ControlMessageOwned) (hardware_timestamping : Bool)
    (clock_now : Int) :
    ((∀ c ∈ cmsgs, c.isScm = false) →
        recvTimestamp cmsgs hardware_timestamping clock_now = clock_now) ∧
      (∀ t, findTimestamps cmsgs = some t →
        recvTimestamp cmsgs hardware_timestamping clock_now
          = if hardware_timestamping then t.hw_raw else t.system) := by
  constructor
  · intro hnone
    have hfind : findTimestamps cmsgs = none := by
      unfold findTimestamps
      rw [List.findSome?_eq_none_iff]
      intro x hx
      cases x with
      | scmTimestampsns t => exact absurd (hnone _ hx) (by simp [ControlMessageOwned.isScm])
      | other => rfl
    simp [recvTimestamp, hfind]
  · intro t ht
    simp [recvTimestamp, ht]

/-- Claim C8 witness: concrete control-message lists exercising all three
outcomes. -/
theorem claim_C8_witness :
    recvTimestamp [.other] true 42 = 42 ∧
      recvTimestamp [.scmTimestampsns ⟨5, 9⟩] true 42 = 9 ∧
      recvTimestamp [.scmTimestampsns ⟨5, 9⟩] false 42 = 5 :=
  ⟨(claim_C8 [.other] true 42).1 (by decide),
    (claim_C8 [.scmTimestampsns ⟨5, 9⟩] true 42).2 ⟨5, 9⟩ rfl,
    (claim_C8 [.scmTimestampsns ⟨5, 9⟩] false 42).2 ⟨5, 9⟩ rfl⟩

end Statime

namespace Statime

/-- Single-character replacement: the effect of `str::replace(pat, r)` for a
one-character pattern `pat` (the three `.replace` calls in exporter.rs lines
317-320 all use one-character patterns). -/
def replaceChar (pat : Char) (r : List Char) : List Char → List Char
  | [] => []
  | x :: xs => (if x = pat then r else [x]) ++ replaceChar pat r xs

/-- exporter.rs lines 317-320: escape a label value: each backslash becomes
`\\`, then each double quote becomes `\"`, then each newline becomes `\n`. -/
def escapeLabelValue (s : List Char) : List Char :=
  replaceChar '\n' ['\\', 'n']
    (replaceChar '"' ['\\', '"']
      (replaceChar '\\' ['\\', '\\'] s))

/-- The per-character effect of the three chained replacements. -/
def escChar (c : Char) : List Char :=
  if c = '\\' then ['\\', '\\']
  else if c = '"' then ['\\', '"']
  else if c = '\n' then ['\\', 'n']
  else [c]

/-- Scanner for a raw double quote or newline: a character directly following
a backslash is escaped; a bare `"` or any newline is raw. -/
def hasRawQuoteOrNewline : List Char → Bool
  | [] => false
  | c :: rest =>
    if c = '\\' then
      match rest with
      | [] => false
      | _ :: rest2 => hasRawQuoteOrNewline rest2
    else if c = '"' ∨ c = '\n' then true
    else hasRawQuoteOrNewline rest

theorem replaceChar_append (pat : Char) (r : List Char) (a b : List Char) :
    replaceChar pat r (a ++ b) = replaceChar pat r a ++ replaceChar pat r b := by
  induction a with
  | nil => rfl
  | cons x xs ih => simp [replaceChar, ih]

theorem escapeLabelValue_cons (c : Char) (s : List Char) :
    escapeLabelValue (c :: s) = escChar c ++ escapeLabelValue s := by
  unfold escapeLabelValue escChar
  rw [show (c :: s) = [c] ++ s from rfl]
  rw [replaceChar_append, replaceChar_append, replaceChar_append]
  congr 1
  by_cases h1 : c = '\\'
  · subst h1; rfl
  · by_cases h2 : c = '"'
    · subst h2; simp_all [replaceChar]
    · by_cases h3 : c = '\n'
      · subst h3; simp_all [replaceChar]
      · simp [replaceChar, h1, h2, h3]

/-- Claim C10: for every input string, the escaped label value emitted by
`format_metric` contains no newline character and no raw (unescaped) double
quote or newline: every `"` in it directly follows a backslash. -/
theorem claim_C10 (s : List Char) :
    (escapeLabelValue s).contains '\n' = false ∧
      hasRawQuoteOrNewline (escapeLabelValue s) = false := by
  induction s with
  | nil => exact ⟨rfl, rfl⟩
  | cons c s ih =>
    obtain ⟨ih1, ih2⟩ := ih
    have ih1m : '\n' ∉ escapeLabelValue s := by simpa using ih1
    rw [escapeLabelValue_cons]
    unfold escChar
    by_cases h1 : c = '\\'
    · subst h1
      simp only [if_pos rfl, List.cons_append]
      refine ⟨?_, ?_⟩
      · simp [List.contains_cons, ih1m]
      · simp [hasRawQuoteOrNewline, ih2]
    · by_cases h2 : c = '"'
      · subst h2
        simp only [h1, if_false, if_pos rfl, List.cons_append]
        refine ⟨?_, ?_⟩
        · simp [List.contains_cons, ih1m]
        · simp [hasRawQuoteOrNewline, ih2]
      · by_cases h3 : c = '\n'
        · subst h3
          simp only [if_pos rfl, if_neg h1, if_neg h2, List.cons_append]
          refine ⟨?_, ?_⟩
          · simp [List.contains_cons, ih1m]
          · simp [hasRawQuoteOrNewline, ih2]
        · simp only [if_neg h1, if_neg h2, if_neg h3, List.cons_append, List.nil_append]
          refine ⟨?_, ?_⟩
          · simp [List.contains_cons, ih1m, Ne.symm h3]
          · show hasRawQuoteOrNewline (c :: escapeLabelValue s) = false
            rw [hasRawQuoteOrNewline.eq_def]
            simp only [if_neg h1]
            rw [if_neg (by simp [h2, h3])]
            exact ih2

end Statime
